import Mathlib

/-!
Verification of the job-progress orchestration core of `src/scripts/app.js`
(YouTube Auto Dub frontend).

The development shallowly embeds the stateful DOM-manipulating handlers as
pure state-transition functions:

* `handleProgressEvent`, `resetProgress`, `markAllStepsDone`, `unlockForm`
  (dub flow) become transitions on `DubUIState`;
* the SSE `onmessage` / `onerror` handlers of `connectSSE` become
  `dubStep` / `dubTransportError`; a whole stream is folded with `dubRun`;
* the download-only flow's `onmessage` / `onerror` handlers become
  `dlStep` / `dlTransportError` on `DlState`;
* the validation prefixes of the three submission entry points become
  `dubSubmitEntry`, `fetchInfoEntry`, `dlStartEntry`;
* the non-2xx response path of the dub submission becomes
  `dubRequestFailed`, and the save-file name derivation becomes
  `saveFileName`.

Modelling conventions:
* A raw SSE message is `Option ProgressEvent`: `none` stands for a payload
  that `JSON.parse` rejects (the `catch` branch), `some ev` for a decoded
  event.  Absent JSON fields decode to `none` / `""` so that the JS
  truthiness tests (`progress >= 0` on `undefined` is false, `message || d`,
  `status === "complete"` on `undefined` is false) are mirrored exactly.
* CSS classes on the six `.step` elements are the `Stages` record of
  `StageMark`s (`done` is the "visited" rendering, `active` the in-progress
  one).  The `.step-line` decorations are a `List Bool` of `done` flags;
  their count comes from markup outside `src/`, so every operation on them
  is per-element.
* `console.error` diagnostics are counted in `diag`; toast notifications
  are accumulated in `toasts` (the UI language is fixed to `en`, so `tr`
  lookups are the English table constants below); wall-clock timestamps of
  `appendLog` are dropped, a log entry is the raw message.
* Closing an `EventSource` means the browser fires no further `onmessage`
  or `onerror` for it; the `chanOpen` guard in `dubStep` / `dlStep` /
  `dubTransportError` / `dlTransportError` encodes that transport fact.
-/

namespace AutoDub

/-- `STEP_ORDER` from app.js line 36. -/
def STEP_ORDER : List String :=
  ["init", "download", "transcribe", "translate", "synthesize", "render"]

/-- JS `Array.prototype.indexOf`: index of the first occurrence, `-1` if absent. -/
def jsIndexOf (x : String) (l : List String) : Int :=
  match l.findIdx? (fun y => y == x) with
  | some n => (n : Int)
  | none => -1

/-- `STEP_ORDER.indexOf(step)` (app.js line 303). -/
def stepIndex (s : String) : Int := jsIndexOf s STEP_ORDER

/-- The CSS classes carried by one `.step` element: `active`, `done`.
`done` is the "visited" rendering of a stage, `active` the in-progress one. -/
structure StageMark where
  active : Bool
  done : Bool
deriving DecidableEq, Repr

/-- No class set (freshly reset element). -/
def StageMark.clear : StageMark := ⟨false, false⟩

/-- Only the `done` class set. -/
def StageMark.doneMark : StageMark := ⟨false, true⟩

/-- Only the `active` class set. -/
def StageMark.activeMark : StageMark := ⟨true, false⟩

/-- The six `.step` DOM elements, keyed by `STEP_ORDER` position. -/
structure Stages where
  stInit : StageMark
  stDownload : StageMark
  stTranscribe : StageMark
  stTranslate : StageMark
  stSynthesize : StageMark
  stRender : StageMark
deriving DecidableEq, Repr

/-- The six stage marks in `STEP_ORDER` order. -/
def Stages.toList (s : Stages) : List StageMark :=
  [s.stInit, s.stDownload, s.stTranscribe, s.stTranslate, s.stSynthesize, s.stRender]

/-- One iteration of the `STEP_ORDER.forEach` body (app.js lines 305-311):
the element's classes are removed, then `done` is added below the event's
index, `done`-or-`active` at the index, nothing above it. -/
def stageMarkAt (i idx : Int) (status : String) : StageMark :=
  if i < idx then .doneMark
  else if i = idx then (if status = "complete" then .doneMark else .activeMark)
  else .clear

/-- The whole `forEach` loop over the six steps for a recognized index. -/
def renderStages (idx : Int) (status : String) : Stages :=
  { stInit := stageMarkAt 0 idx status
    stDownload := stageMarkAt 1 idx status
    stTranscribe := stageMarkAt 2 idx status
    stTranslate := stageMarkAt 3 idx status
    stSynthesize := stageMarkAt 4 idx status
    stRender := stageMarkAt 5 idx status }

/-- All six steps with no classes (after `resetProgress`). -/
def clearedStages : Stages :=
  ⟨.clear, .clear, .clear, .clear, .clear, .clear⟩

/-- All six steps `done` (after `markAllStepsDone`). -/
def allDoneStages : Stages :=
  ⟨.doneMark, .doneMark, .doneMark, .doneMark, .doneMark, .doneMark⟩

/-- `$$(".step-line").forEach((line, i) => line.classList.toggle("done", i < idx))`
(app.js lines 313-315), element by element starting at position `i`. -/
def renderLinesFrom (idx : Int) : Nat → List Bool → List Bool
  | _, [] => []
  | i, _ :: rest => decide ((i : Int) < idx) :: renderLinesFrom idx (i + 1) rest

/-- The `.step-line` toggle loop. -/
def renderLines (idx : Int) (ls : List Bool) : List Bool := renderLinesFrom idx 0 ls

/-- A decoded SSE payload (`JSON.parse(e.data)`).  A JSON field that is
absent decodes to `none` (for `progress` / `message`) or `""` (for `step` /
`status`), so the JS truthiness and `===` tests behave identically. -/
structure ProgressEvent where
  step : String
  progress : Option Int
  message : Option String
  status : String
deriving DecidableEq, Repr

/-- JS `m || d` for an optional string `m`: `undefined` and `""` are falsy. -/
def orDefault (m : Option String) (d : String) : String :=
  match m with
  | some s => if s ≠ "" then s else d
  | none => d

/-- `tr("toastNoUrl")` at UI language `en`. -/
def toastNoUrl : String := "Please enter a YouTube URL."

/-- `tr("toastComplete")` at UI language `en`. -/
def toastComplete : String := "Dubbing complete! 🎉"

/-- `tr("toastDisconnect")` at UI language `en`. -/
def toastDisconnect : String := "Lost connection to server."

/-- `tr("dlComplete")` at UI language `en`. -/
def trDlComplete : String := "Download ready!"

/-- The rendered state owned by the dub flow.

* `pct` — `#progress-bar` width and `#progress-pct` text (both always set
  together to the same number, so one field);
* `stages` / `lines` — the step indicator;
* `log` — `#log-box` entries (messages, timestamps dropped);
* `resultShown` / `resultMeta` / `downloadHref` — `#result-section`,
  `#result-meta`, `#download-link.href`;
* `locked` — `submitBtn.disabled` (with the label/loader visibility that
  always toggles with it);
* `toasts` — every message passed to `showToast`, in order;
* `chanOpen` — whether the job's `EventSource` is open;
* `diag` — number of `console.error` diagnostics. -/
structure DubUIState where
  pct : Int
  stages : Stages
  lines : List Bool
  log : List String
  resultShown : Bool
  resultMeta : Option String
  downloadHref : Option String
  locked : Bool
  toasts : List String
  chanOpen : Bool
  diag : Nat
deriving DecidableEq, Repr

/-- The dub UI before any submission: nothing rendered, nothing locked. -/
def initDubUI : DubUIState :=
  { pct := 0, stages := clearedStages, lines := [], log := []
    resultShown := false, resultMeta := none, downloadHref := none
    locked := false, toasts := [], chanOpen := false, diag := 0 }

/-- The dub UI right after a successful submission locked the form, reset
progress and opened the job's `EventSource`. -/
def submittedState : DubUIState :=
  { initDubUI with locked := true, chanOpen := true }

/-- app.js lines 296-300: `if (progress >= 0) { bar.width = progress + "%"; ... }`. -/
def updateBar (st : DubUIState) (ev : ProgressEvent) : DubUIState :=
  match ev.progress with
  | some p => if 0 ≤ p then { st with pct := p } else st
  | none => st

/-- app.js lines 302-316: the step-indicator block of `handleProgressEvent`. -/
def updateSteps (st : DubUIState) (ev : ProgressEvent) : DubUIState :=
  if 0 ≤ stepIndex ev.step then
    { st with stages := renderStages (stepIndex ev.step) ev.status
              lines := renderLines (stepIndex ev.step) st.lines }
  else st

/-- app.js lines 318-321: `if (message && step !== "heartbeat") appendLog(message)`. -/
def updateLog (st : DubUIState) (ev : ProgressEvent) : DubUIState :=
  match ev.message with
  | some m => if m ≠ "" ∧ ev.step ≠ "heartbeat" then { st with log := st.log ++ [m] } else st
  | none => st

/-- `markAllStepsDone` (app.js lines 357-362). -/
def markAllStepsDone (st : DubUIState) : DubUIState :=
  { st with stages := allDoneStages
            lines := st.lines.map (fun _ => true)
            pct := 100 }

/-- app.js lines 323-331: the `status === "complete"` block of
`handleProgressEvent`. -/
def updateCompletion (jobId : String) (st : DubUIState) (ev : ProgressEvent) : DubUIState :=
  if ev.status = "complete" then
    let st1 := markAllStepsDone st
    { st1 with resultMeta := ev.message
               downloadHref := some ("/api/download/" ++ jobId)
               resultShown := true
               toasts := st1.toasts ++ [toastComplete] }
  else st

/-- app.js lines 333-336: the `status === "error"` block of
`handleProgressEvent`. -/
def updateError (st : DubUIState) (ev : ProgressEvent) : DubUIState :=
  if ev.status = "error" then
    { st with toasts := st.toasts ++ [orDefault ev.message "An error occurred during processing."] }
  else st

/-- `handleProgressEvent(ev, jobId)` (app.js lines 293-337), as the
composition of its five blocks in source order. -/
def handleProgressEvent (jobId : String) (st : DubUIState) (ev : ProgressEvent) : DubUIState :=
  let st1 := updateBar st ev
  let st2 := updateSteps st1 ev
  let st3 := updateLog st2 ev
  let st4 := updateCompletion jobId st3 ev
  updateError st4 ev

/-- `resetProgress` (app.js lines 349-355). -/
def resetProgress (st : DubUIState) : DubUIState :=
  { st with pct := 0
            log := []
            stages := clearedStages
            lines := st.lines.map (fun _ => false) }

/-- `unlockForm` (app.js lines 364-368). -/
def unlockForm (st : DubUIState) : DubUIState :=
  { st with locked := false }

/-- A fold of `handleProgressEvent` over a sequence of decoded events
(the per-event handling of one Job, no transport involved). -/
def processEvents (jobId : String) (st : DubUIState) (evs : List ProgressEvent) : DubUIState :=
  evs.foldl (handleProgressEvent jobId) st

/-- The `evtSource.onmessage` handler installed by `connectSSE` (app.js
lines 273-284): parse, handle, close-and-unlock on a terminal status;
`JSON.parse` failure (`none`) only logs a diagnostic.  A closed source
fires no handler, hence the `chanOpen` guard. -/
def dubStep (jobId : String) (st : DubUIState) (msg : Option ProgressEvent) : DubUIState :=
  if st.chanOpen then
    match msg with
    | none => { st with diag := st.diag + 1 }
    | some ev =>
      let st1 := handleProgressEvent jobId st ev
      if ev.status = "complete" ∨ ev.status = "error" then
        unlockForm { st1 with chanOpen := false }
      else st1
  else st

/-- Delivery of a whole sequence of raw SSE messages to the dub flow. -/
def dubRun (jobId : String) (st : DubUIState) (msgs : List (Option ProgressEvent)) : DubUIState :=
  msgs.foldl (dubStep jobId) st

/-- The `evtSource.onerror` handler installed by `connectSSE` (app.js
lines 286-290): close, toast "lost connection", unlock.  A closed source
fires no `onerror`, hence the guard. -/
def dubTransportError (st : DubUIState) : DubUIState :=
  if st.chanOpen then
    unlockForm { st with chanOpen := false, toasts := st.toasts ++ [toastDisconnect] }
  else st

/-- The rendered state owned by the download-only flow.

* `dlPct` — `#dl-progress-bar` width / `#dl-progress-pct` text;
* `dlMsg` — `#dl-progress-msg` text;
* `saveBtnCount` — number of `.dl-save-btn` elements currently rendered;
* `locked` — `dlStartBtn.disabled` (with its label/loader);
* `toasts`, `chanOpen`, `diag` — as in `DubUIState`. -/
structure DlState where
  dlPct : Int
  dlMsg : String
  saveBtnCount : Nat
  locked : Bool
  toasts : List String
  chanOpen : Bool
  diag : Nat
deriving DecidableEq, Repr

/-- The download flow before any start: nothing rendered, nothing locked. -/
def dlInit : DlState :=
  { dlPct := 0, dlMsg := "", saveBtnCount := 0, locked := false
    toasts := [], chanOpen := false, diag := 0 }

/-- The download flow right after a download job was started. -/
def dlOpenState : DlState :=
  { dlInit with locked := true, chanOpen := true }

/-- The `evtSource.onmessage` handler of the download flow (app.js lines
539-610): bounded progress update, message update, save-button creation on
`complete`, toast on `error`; parse failure only logs a diagnostic. -/
def dlStep (st : DlState) (msg : Option ProgressEvent) : DlState :=
  if st.chanOpen then
    match msg with
    | none => { st with diag := st.diag + 1 }
    | some ev =>
      let st1 :=
        match ev.progress with
        | some p => if 0 ≤ p ∧ p ≤ 100 then { st with dlPct := p } else st
        | none => st
      let st2 :=
        match ev.message with
        | some m => if m ≠ "" then { st1 with dlMsg := m } else st1
        | none => st1
      if ev.status = "complete" then
        { st2 with chanOpen := false
                   dlMsg := orDefault ev.message trDlComplete
                   saveBtnCount := 1
                   locked := false }
      else if ev.status = "error" then
        { st2 with chanOpen := false
                   toasts := st2.toasts ++ [orDefault ev.message "Download failed"]
                   locked := false }
      else st2
  else st

/-- Delivery of a whole sequence of raw SSE messages to the download flow. -/
def dlRun (st : DlState) (msgs : List (Option ProgressEvent)) : DlState :=
  msgs.foldl dlStep st

/-- The `evtSource.onerror` handler of the download flow (app.js lines
611-615): close, toast "lost connection", unlock. -/
def dlTransportError (st : DlState) : DlState :=
  if st.chanOpen then
    { st with chanOpen := false, toasts := st.toasts ++ [toastDisconnect], locked := false }
  else st

/-- JS whitespace as far as `String.prototype.trim` is concerned,
restricted to the ASCII range. -/
def isJsWhitespace (c : Char) : Bool :=
  c = ' ' || c = '\t' || c = '\n' || c = '\r' || c = '\x0b' || c = '\x0c'

/-- `String.prototype.trim`: strip leading and trailing whitespace. -/
def jsTrim (s : String) : String :=
  String.mk (((s.data.dropWhile isJsWhitespace).reverse.dropWhile isJsWhitespace).reverse)

/-- What the synchronous validation prefix of a submission handler did:
whether the network request was issued, whether the submit control was
disabled, and which toasts were shown. -/
structure EntryOutcome where
  requestSent : Bool
  lockTaken : Bool
  toasts : List String
deriving DecidableEq, Repr

/-- The dub form `submit` handler up to its `fetch` (app.js lines 230-252):
empty trimmed URL toasts and returns; otherwise the UI is locked and the
request issued. -/
def dubSubmitEntry (urlValue : String) : EntryOutcome :=
  if jsTrim urlValue = "" then
    { requestSent := false, lockTaken := false, toasts := [toastNoUrl] }
  else
    { requestSent := true, lockTaken := true, toasts := [] }

/-- The `fetchInfoBtn` click handler up to its `fetch` (app.js lines
451-459): same validation as the dub form. -/
def fetchInfoEntry (urlValue : String) : EntryOutcome :=
  if jsTrim urlValue = "" then
    { requestSent := false, lockTaken := false, toasts := [toastNoUrl] }
  else
    { requestSent := true, lockTaken := true, toasts := [] }

/-- The `dlStartBtn` click handler up to its `fetch` (app.js lines
508-526): `if (!url || !formatId) return;` — a silent return, no toast. -/
def dlStartEntry (urlValue formatId : String) : EntryOutcome :=
  if jsTrim urlValue = "" ∨ formatId = "" then
    { requestSent := false, lockTaken := false, toasts := [] }
  else
    { requestSent := true, lockTaken := true, toasts := [] }

/-- `err.detail || "Server error " + res.status` (app.js lines 258-259):
`detail` is the parsed body's field, `none` when the body failed to parse
as JSON or had no such field. -/
def serverErrorMessage (status : Nat) (detail : Option String) : String :=
  orDefault detail ("Server error " ++ toString status)

/-- The non-2xx path of the dub submission (app.js lines 257-266): the
thrown message is toasted and the form unlocked by the `catch` block. -/
def dubRequestFailed (st : DubUIState) (status : Nat) (detail : Option String) : DubUIState :=
  unlockForm { st with toasts := st.toasts ++ [serverErrorMessage status detail] }

/-- The slice of the `/api/video-info` response the save action reads. -/
structure VideoData where
  title : String
deriving DecidableEq, Repr

/-- The characters of the sanitizing regex `/[\\/:*?"<>|]/g` (app.js line 576). -/
def unsafeChars : List Char := ['\\', '/', ':', '*', '?', '"', '<', '>', '|']

/-- `title.replace(/[\\/:*?"<>|]/g, "_")`: the global single-character
regex replace is a character map. -/
def sanitizeTitle (t : String) : String :=
  String.mk (t.data.map (fun c => if c ∈ unsafeChars then '_' else c))

/-- The filename derivation of `saveBtn.onclick` (app.js lines 574-577):
extension by media type, sanitized title, `"download"` when `videoData`
is absent or its title is empty (falsy). -/
def saveFileName (videoData : Option VideoData) (mediaType : String) : String :=
  let ext := if mediaType = "audio" then ".mp3" else ".mp4"
  let title :=
    match videoData with
    | some vd => if vd.title ≠ "" then sanitizeTitle vd.title else "download"
    | none => "download"
  title ++ ext

/-! ### Projection lemmas for the five blocks of `handleProgressEvent` -/

/-- An event is relevant to the rendered stage state iff its step is
recognized or its status is `complete`. -/
def relevantB (ev : ProgressEvent) : Bool :=
  decide (0 ≤ stepIndex ev.step) || decide (ev.status = "complete")

/-- The stage state a relevant event forces, independently of history. -/
def stageOf (ev : ProgressEvent) : Stages :=
  if ev.status = "complete" then allDoneStages
  else renderStages (stepIndex ev.step) ev.status

/-- The percentage written by the progress-bar block, as a function of the
previous one. -/
def pctStep (p : Int) (ev : ProgressEvent) : Int :=
  match ev.progress with
  | some q => if 0 ≤ q then q else p
  | none => p

/-- The progress percentage after one whole event, as a function of the
previous one. -/
def pctEffect (p : Int) (ev : ProgressEvent) : Int :=
  if ev.status = "complete" then 100 else pctStep p ev

/-- The log entries one event appends. -/
def logEntries (ev : ProgressEvent) : List String :=
  match ev.message with
  | some m => if m ≠ "" ∧ ev.step ≠ "heartbeat" then [m] else []
  | none => []

/-- The toasts the error block appends. -/
def errToasts (ev : ProgressEvent) : List String :=
  if ev.status = "error" then [orDefault ev.message "An error occurred during processing."]
  else []

lemma updateBar_eq (st : DubUIState) (ev : ProgressEvent) :
    updateBar st ev = { st with pct := pctStep st.pct ev } := by
  unfold updateBar pctStep
  cases ev.progress with
  | none => rfl
  | some q =>
    dsimp only
    split_ifs <;> rfl

lemma updateSteps_eq (st : DubUIState) (ev : ProgressEvent) :
    updateSteps st ev =
      if 0 ≤ stepIndex ev.step then
        { st with stages := renderStages (stepIndex ev.step) ev.status
                  lines := renderLines (stepIndex ev.step) st.lines }
      else st := rfl

lemma updateLog_eq (st : DubUIState) (ev : ProgressEvent) :
    updateLog st ev = { st with log := st.log ++ logEntries ev } := by
  unfold updateLog logEntries
  cases ev.message with
  | none => simp
  | some m =>
    dsimp only
    split_ifs <;> simp

lemma updateCompletion_eq (jobId : String) (st : DubUIState) (ev : ProgressEvent) :
    updateCompletion jobId st ev =
      if ev.status = "complete" then
        { st with stages := allDoneStages
                  lines := st.lines.map (fun _ => true)
                  pct := 100
                  resultMeta := ev.message
                  downloadHref := some ("/api/download/" ++ jobId)
                  resultShown := true
                  toasts := st.toasts ++ [toastComplete] }
      else st := by
  unfold updateCompletion markAllStepsDone
  split_ifs <;> rfl

lemma updateError_eq (st : DubUIState) (ev : ProgressEvent) :
    updateError st ev = { st with toasts := st.toasts ++ errToasts ev } := by
  unfold updateError errToasts
  split_ifs <;> simp

lemma handleProgressEvent_stages (jobId : String) (st : DubUIState) (ev : ProgressEvent) :
    (handleProgressEvent jobId st ev).stages =
      if relevantB ev then stageOf ev else st.stages := by
  by_cases hc : ev.status = "complete" <;> by_cases hr : 0 ≤ stepIndex ev.step <;>
    simp [handleProgressEvent, updateBar_eq, updateSteps_eq, updateLog_eq,
      updateCompletion_eq, updateError_eq, relevantB, stageOf, hc, hr]

lemma handleProgressEvent_pct (jobId : String) (st : DubUIState) (ev : ProgressEvent) :
    (handleProgressEvent jobId st ev).pct = pctEffect st.pct ev := by
  by_cases hc : ev.status = "complete" <;> by_cases hr : 0 ≤ stepIndex ev.step <;>
    simp [handleProgressEvent, updateBar_eq, updateSteps_eq, updateLog_eq,
      updateCompletion_eq, updateError_eq, pctEffect, hc, hr]

lemma handleProgressEvent_chanOpen (jobId : String) (st : DubUIState) (ev : ProgressEvent) :
    (handleProgressEvent jobId st ev).chanOpen = st.chanOpen := by
  by_cases hc : ev.status = "complete" <;> by_cases hr : 0 ≤ stepIndex ev.step <;>
    simp [handleProgressEvent, updateBar_eq, updateSteps_eq, updateLog_eq,
      updateCompletion_eq, updateError_eq, hc, hr]

lemma handleProgressEvent_downloadHref (jobId : String) (st : DubUIState) (ev : ProgressEvent) :
    (handleProgressEvent jobId st ev).downloadHref =
      if ev.status = "complete" then some ("/api/download/" ++ jobId) else st.downloadHref := by
  by_cases hc : ev.status = "complete" <;> by_cases hr : 0 ≤ stepIndex ev.step <;>
    simp [handleProgressEvent, updateBar_eq, updateSteps_eq, updateLog_eq,
      updateCompletion_eq, updateError_eq, hc, hr]

lemma handleProgressEvent_resultShown (jobId : String) (st : DubUIState) (ev : ProgressEvent) :
    (handleProgressEvent jobId st ev).resultShown =
      if ev.status = "complete" then true else st.resultShown := by
  by_cases hc : ev.status = "complete" <;> by_cases hr : 0 ≤ stepIndex ev.step <;>
    simp [handleProgressEvent, updateBar_eq, updateSteps_eq, updateLog_eq,
      updateCompletion_eq, updateError_eq, hc, hr]

lemma handleProgressEvent_locked (jobId : String) (st : DubUIState) (ev : ProgressEvent) :
    (handleProgressEvent jobId st ev).locked = st.locked := by
  by_cases hc : ev.status = "complete" <;> by_cases hr : 0 ≤ stepIndex ev.step <;>
    simp [handleProgressEvent, updateBar_eq, updateSteps_eq, updateLog_eq,
      updateCompletion_eq, updateError_eq, hc, hr]

/-! ### Fold characterizations -/

lemma processEvents_cons (jobId : String) (st : DubUIState) (ev : ProgressEvent)
    (evs : List ProgressEvent) :
    processEvents jobId st (ev :: evs) = processEvents jobId (handleProgressEvent jobId st ev) evs := rfl

lemma processEvents_concat (jobId : String) (st : DubUIState) (evs : List ProgressEvent)
    (ev : ProgressEvent) :
    processEvents jobId st (evs ++ [ev]) =
      handleProgressEvent jobId (processEvents jobId st evs) ev := by
  simp [processEvents, List.foldl_append]

/-- The rendered stage state after a sequence of events is determined by the
last relevant event of the sequence (or untouched when there is none). -/
lemma processEvents_stages (jobId : String) (evs : List ProgressEvent) (st : DubUIState) :
    (processEvents jobId st evs).stages =
      (((evs.filter relevantB).getLast?).map stageOf).getD st.stages := by
  induction evs using List.reverseRecOn with
  | nil => rfl
  | append_singleton evs ev ih =>
    rw [processEvents_concat, handleProgressEvent_stages, List.filter_append]
    by_cases hr : relevantB ev
    · simp [hr, List.getLast?_concat]
    · simp [hr, ih]

lemma processEvents_pct (jobId : String) (evs : List ProgressEvent) (st : DubUIState) :
    (processEvents jobId st evs).pct = evs.foldl pctEffect st.pct := by
  induction evs generalizing st with
  | nil => rfl
  | cons ev evs ih =>
    rw [processEvents_cons, ih, handleProgressEvent_pct, List.foldl_cons]

/-! ### Channel guard lemmas -/

lemma dubStep_closed (jobId : String) (st : DubUIState) (msg : Option ProgressEvent)
    (h : st.chanOpen = false) : dubStep jobId st msg = st := by
  simp [dubStep, h]

lemma dubRun_closed (jobId : String) (st : DubUIState) (msgs : List (Option ProgressEvent))
    (h : st.chanOpen = false) : dubRun jobId st msgs = st := by
  induction msgs with
  | nil => rfl
  | cons m msgs ih =>
    show dubRun jobId (dubStep jobId st m) msgs = st
    rw [dubStep_closed jobId st m h, ih]

lemma dlStep_closed (st : DlState) (msg : Option ProgressEvent)
    (h : st.chanOpen = false) : dlStep st msg = st := by
  simp [dlStep, h]

lemma dlRun_closed (st : DlState) (msgs : List (Option ProgressEvent))
    (h : st.chanOpen = false) : dlRun st msgs = st := by
  induction msgs with
  | nil => rfl
  | cons m msgs ih =>
    show dlRun (dlStep st m) msgs = st
    rw [dlStep_closed st m h, ih]

lemma dubStep_terminal_closes (jobId : String) (st : DubUIState) (ev : ProgressEvent)
    (hopen : st.chanOpen = true) (hterm : ev.status = "complete" ∨ ev.status = "error") :
    (dubStep jobId st (some ev)).chanOpen = false := by
  simp [dubStep, hopen, unlockForm, if_pos hterm]

lemma dlStep_terminal_closes (st : DlState) (ev : ProgressEvent)
    (hopen : st.chanOpen = true) (hterm : ev.status = "complete" ∨ ev.status = "error") :
    (dlStep st (some ev)).chanOpen = false := by
  by_cases hc : ev.status = "complete"
  · simp [dlStep, hopen, hc]
  · rcases hterm with h | h
    · exact absurd h hc
    · simp [dlStep, hopen, hc, h]

/-! ### Concrete events used by counterexamples and witnesses -/

/-- An event is recognized iff its step is a `StageId` of `STEP_ORDER`. -/
def recognizedB (ev : ProgressEvent) : Bool := decide (0 ≤ stepIndex ev.step)

/-- A running `translate` event (stage index 3). -/
def evTranslateRunning : ProgressEvent :=
  { step := "translate", progress := some 55, message := none, status := "running" }

/-- A running `transcribe` event (stage index 2). -/
def evTranscribeRunning : ProgressEvent :=
  { step := "transcribe", progress := some 40, message := none, status := "running" }

/-- A terminal event whose step is the unrecognized `heartbeat` marker. -/
def evHeartbeatComplete : ProgressEvent :=
  { step := "heartbeat", progress := none, message := none, status := "complete" }

/-- The event `{step: download, progress: 40, status: running}`. -/
def evDownload40 : ProgressEvent :=
  { step := "download", progress := some 40, message := none, status := "running" }

/-- The event `{step: render, progress: 100, status: complete}`. -/
def evRenderComplete : ProgressEvent :=
  { step := "render", progress := some 100, message := none, status := "complete" }

/-! ### The claims -/

/-- C1 (counterexample): visited stages are not monotone within one Job.
From a reset state, after a running `translate` event the `transcribe`
stage is rendered visited (`done`); processing a subsequent out-of-order
running `transcribe` event leaves `transcribe` no longer visited, so the
claim "once a stage is rendered visited it remains visited; the machine
renders max(index seen so far)" is false on this sequence. -/
theorem C1_counterexample :
    (processEvents "job-1" initDubUI [evTranslateRunning]).stages.stTranscribe.done = true ∧
    (processEvents "job-1" initDubUI [evTranslateRunning, evTranscribeRunning]).stages.stTranscribe.done = false := by
  decide

/-- C1 (amended): the machine renders the index of the most recent
recognized event, not the max of the indices seen so far.  A recognized
non-`complete` event sets the rendered stage state to exactly
`renderStages` of its own index — stages below it visited, its own stage
active, stages above it cleared — irrespective of the previous state, so
an event with a lower index than previously observed regresses the
previously visited stages. -/
theorem C1_amended (jobId : String) (st : DubUIState) (ev : ProgressEvent)
    (hrec : 0 ≤ stepIndex ev.step) (hnc : ev.status ≠ "complete") :
    (handleProgressEvent jobId st ev).stages = renderStages (stepIndex ev.step) ev.status := by
  rw [handleProgressEvent_stages]
  simp [relevantB, stageOf, hrec, hnc]

/-- C1 witness: the amended claim at the counterexample's input. -/
theorem C1_amended_witness :
    (handleProgressEvent "job-1" (processEvents "job-1" initDubUI [evTranslateRunning])
        evTranscribeRunning).stages =
      renderStages (stepIndex evTranscribeRunning.step) evTranscribeRunning.status :=
  C1_amended "job-1" (processEvents "job-1" initDubUI [evTranslateRunning])
    evTranscribeRunning (by decide) (by decide)

/-- C2: in both the dub flow and the download flow, once the handler
processes an event with status `complete` or `error` the job's
subscription is closed, and delivering any further messages afterwards
leaves the state unchanged. -/
theorem C2_terminal_closes_channel :
    (∀ (jobId : String) (st : DubUIState) (ev : ProgressEvent)
        (rest : List (Option ProgressEvent)),
        st.chanOpen = true → (ev.status = "complete" ∨ ev.status = "error") →
        (dubStep jobId st (some ev)).chanOpen = false ∧
        dubRun jobId (dubStep jobId st (some ev)) rest = dubStep jobId st (some ev)) ∧
    (∀ (st : DlState) (ev : ProgressEvent) (rest : List (Option ProgressEvent)),
        st.chanOpen = true → (ev.status = "complete" ∨ ev.status = "error") →
        (dlStep st (some ev)).chanOpen = false ∧
        dlRun (dlStep st (some ev)) rest = dlStep st (some ev)) := by
  constructor
  · intro jobId st ev rest hopen hterm
    have hc := dubStep_terminal_closes jobId st ev hopen hterm
    exact ⟨hc, dubRun_closed jobId _ rest hc⟩
  · intro st ev rest hopen hterm
    have hc := dlStep_terminal_closes st ev hopen hterm
    exact ⟨hc, dlRun_closed _ rest hc⟩

/-- C2 witness: a `complete` event closes both flows' channels and a
later message has no effect. -/
theorem C2_witness :
    ((dubStep "j1" submittedState (some evRenderComplete)).chanOpen = false ∧
      dubRun "j1" (dubStep "j1" submittedState (some evRenderComplete)) [some evDownload40] =
        dubStep "j1" submittedState (some evRenderComplete)) ∧
    ((dlStep dlOpenState (some evRenderComplete)).chanOpen = false ∧
      dlRun (dlStep dlOpenState (some evRenderComplete)) [some evDownload40] =
        dlStep dlOpenState (some evRenderComplete)) :=
  ⟨C2_terminal_closes_channel.1 "j1" submittedState evRenderComplete [some evDownload40]
      rfl (Or.inl rfl),
   C2_terminal_closes_channel.2 dlOpenState evRenderComplete [some evDownload40]
      rfl (Or.inl rfl)⟩

/-- C3: `resetProgress` followed by any event sequence renders exactly the
stage state and percentage that a freshly initialized machine renders on
that sequence, whatever state the reset started from. -/
theorem C3_reset_idempotent (jobId : String) (st : DubUIState) (evs : List ProgressEvent) :
    (processEvents jobId (resetProgress st) evs).stages =
      (processEvents jobId initDubUI evs).stages ∧
    (processEvents jobId (resetProgress st) evs).pct =
      (processEvents jobId initDubUI evs).pct := by
  constructor
  · rw [processEvents_stages, processEvents_stages]
    rfl
  · rw [processEvents_pct, processEvents_pct]
    rfl

/-- C4 (counterexample): the download-start entry point with a nonempty
URL but a missing format id issues no request and takes no lock, but shows
no validation notification either — it returns silently, refuting the
claim that every entry point shows a validation notification on empty
required input. -/
theorem C4_counterexample :
    dlStartEntry "https://youtu.be/abc" "" =
      { requestSent := false, lockTaken := false, toasts := [] } := by
  decide

/-- C4 (amended): on empty required input no entry point issues a network
request or takes a lock; the dub submit and the download info fetch show
the validation notification, while the download-start handler returns
silently with no notification. -/
theorem C4_amended :
    (∀ u : String, jsTrim u = "" →
        dubSubmitEntry u = { requestSent := false, lockTaken := false, toasts := [toastNoUrl] } ∧
        fetchInfoEntry u = { requestSent := false, lockTaken := false, toasts := [toastNoUrl] }) ∧
    (∀ u fid : String, jsTrim u = "" ∨ fid = "" →
        dlStartEntry u fid = { requestSent := false, lockTaken := false, toasts := [] }) := by
  constructor
  · intro u h
    exact ⟨by simp [dubSubmitEntry, h], by simp [fetchInfoEntry, h]⟩
  · intro u fid h
    unfold dlStartEntry
    rw [if_pos h]

/-- C4 witness: the amended claim at a whitespace URL and at a missing
format id. -/
theorem C4_amended_witness :
    (dubSubmitEntry " " = { requestSent := false, lockTaken := false, toasts := [toastNoUrl] } ∧
      fetchInfoEntry " " = { requestSent := false, lockTaken := false, toasts := [toastNoUrl] }) ∧
    dlStartEntry "https://youtu.be/abc" "" =
      { requestSent := false, lockTaken := false, toasts := [] } :=
  ⟨C4_amended.1 " " (by decide), C4_amended.2 "https://youtu.be/abc" "" (Or.inr rfl)⟩

/-- C5 (counterexample): an HTTP 500 body `{"detail": ""}` does contain a
`detail` field, yet the controller surfaces the generic "Server error 500"
instead of that (empty) detail, refuting the claim that the detail field
is surfaced exactly whenever the body contains one. -/
theorem C5_counterexample :
    (dubRequestFailed submittedState 500 (some "")).toasts = ["Server error 500"] ∧
    "Server error 500" ≠ "" := by
  decide

/-- C5 (amended): on a non-2xx dub job-creation response the controller
surfaces exactly the body's `detail` field when it is present and
non-empty, otherwise the generic message "Server error (status)", and in
every case the submit control is returned to the enabled state. -/
theorem C5_amended :
    (∀ (st : DubUIState) (status : Nat) (d : String), d ≠ "" →
        (dubRequestFailed st status (some d)).toasts = st.toasts ++ [d] ∧
        (dubRequestFailed st status (some d)).locked = false) ∧
    (∀ (st : DubUIState) (status : Nat),
        (dubRequestFailed st status none).toasts =
          st.toasts ++ ["Server error " ++ toString status] ∧
        (dubRequestFailed st status (some "")).toasts =
          st.toasts ++ ["Server error " ++ toString status] ∧
        (dubRequestFailed st status none).locked = false) := by
  constructor
  · intro st status d hd
    exact ⟨by simp [dubRequestFailed, unlockForm, serverErrorMessage, orDefault, hd], rfl⟩
  · intro st status
    refine ⟨?_, ?_, rfl⟩ <;>
      simp [dubRequestFailed, unlockForm, serverErrorMessage, orDefault]

/-- C5 witness: HTTP 500 with detail "queue full" surfaces exactly
"queue full" and leaves the submit control enabled. -/
theorem C5_amended_witness :
    (dubRequestFailed submittedState 500 (some "queue full")).toasts =
      submittedState.toasts ++ ["queue full"] ∧
    (dubRequestFailed submittedState 500 (some "queue full")).locked = false :=
  C5_amended.1 submittedState 500 "queue full" (by decide)

/-- C6: in both flows a malformed stream payload (one `JSON.parse`
rejects) only increments the diagnostic log counter: every rendered field
is unchanged and the subscription stays open, and the handler is a total
function, so nothing escapes it. -/
theorem C6_malformed_dropped :
    (∀ (jobId : String) (st : DubUIState), st.chanOpen = true →
        dubStep jobId st none = { st with diag := st.diag + 1 } ∧
        (dubStep jobId st none).chanOpen = true) ∧
    (∀ st : DlState, st.chanOpen = true →
        dlStep st none = { st with diag := st.diag + 1 } ∧
        (dlStep st none).chanOpen = true) := by
  constructor
  · intro jobId st h
    have heq : dubStep jobId st none = { st with diag := st.diag + 1 } := by
      simp [dubStep, h]
    exact ⟨heq, by rw [heq]; exact h⟩
  · intro st h
    have heq : dlStep st none = { st with diag := st.diag + 1 } := by
      simp [dlStep, h]
    exact ⟨heq, by rw [heq]; exact h⟩

/-- C6 witness: a malformed payload on each flow's open channel. -/
theorem C6_witness :
    (dubStep "j1" submittedState none =
        { submittedState with diag := submittedState.diag + 1 } ∧
      (dubStep "j1" submittedState none).chanOpen = true) ∧
    (dlStep dlOpenState none = { dlOpenState with diag := dlOpenState.diag + 1 } ∧
      (dlStep dlOpenState none).chanOpen = true) :=
  ⟨C6_malformed_dropped.1 "j1" submittedState rfl, C6_malformed_dropped.2 dlOpenState rfl⟩

/-- C7: a transport-level disconnect while the channel is still open (no
terminal status seen) closes the subscription, shows exactly one "lost
connection" notification, unlocks the submit (resp. download start)
control, and no reconnection happens — every later message is ignored, so
only a fresh submission can retry. -/
theorem C7_transport_disconnect :
    (∀ (jobId : String) (st : DubUIState), st.chanOpen = true →
        (dubTransportError st).chanOpen = false ∧
        (dubTransportError st).toasts = st.toasts ++ [toastDisconnect] ∧
        (dubTransportError st).locked = false ∧
        ∀ rest, dubRun jobId (dubTransportError st) rest = dubTransportError st) ∧
    (∀ st : DlState, st.chanOpen = true →
        (dlTransportError st).chanOpen = false ∧
        (dlTransportError st).toasts = st.toasts ++ [toastDisconnect] ∧
        (dlTransportError st).locked = false ∧
        ∀ rest, dlRun (dlTransportError st) rest = dlTransportError st) := by
  constructor
  · intro jobId st h
    have hco : (dubTransportError st).chanOpen = false := by
      simp [dubTransportError, unlockForm, h]
    refine ⟨hco, ?_, ?_, fun rest => dubRun_closed jobId _ rest hco⟩ <;>
      simp [dubTransportError, unlockForm, h]
  · intro st h
    have hco : (dlTransportError st).chanOpen = false := by
      simp [dlTransportError, h]
    refine ⟨hco, ?_, ?_, fun rest => dlRun_closed _ rest hco⟩ <;>
      simp [dlTransportError, h]

/-- C7 witness: a disconnect on each flow's open channel, with one later
message ignored. -/
theorem C7_witness :
    ((dubTransportError submittedState).chanOpen = false ∧
      (dubTransportError submittedState).toasts = submittedState.toasts ++ [toastDisconnect] ∧
      (dubTransportError submittedState).locked = false ∧
      ∀ rest, dubRun "j1" (dubTransportError submittedState) rest =
        dubTransportError submittedState) ∧
    ((dlTransportError dlOpenState).chanOpen = false ∧
      (dlTransportError dlOpenState).toasts = dlOpenState.toasts ++ [toastDisconnect] ∧
      (dlTransportError dlOpenState).locked = false ∧
      ∀ rest, dlRun (dlTransportError dlOpenState) rest = dlTransportError dlOpenState) :=
  ⟨C7_transport_disconnect.1 "j1" submittedState rfl,
   C7_transport_disconnect.2 dlOpenState rfl⟩

/-- C8: processing any dub-flow event with status `complete` on an open
channel renders every stage visited, displays 100%, reveals the result
affordance with the per-job artifact URL `/api/download/(jobId)`, and
unlocks the submit control; in particular the concrete stream
`{step: download, progress: 40, status: running}` then
`{step: render, progress: 100, status: complete}` ends with all stages
visited and 100% displayed. -/
theorem C8_complete_event :
    (∀ (jobId : String) (st : DubUIState) (ev : ProgressEvent),
        st.chanOpen = true → ev.status = "complete" →
        (dubStep jobId st (some ev)).stages = allDoneStages ∧
        (dubStep jobId st (some ev)).pct = 100 ∧
        (dubStep jobId st (some ev)).downloadHref = some ("/api/download/" ++ jobId) ∧
        (dubStep jobId st (some ev)).resultShown = true ∧
        (dubStep jobId st (some ev)).locked = false) ∧
    ((dubRun "job-42" submittedState [some evDownload40, some evRenderComplete]).stages =
        allDoneStages ∧
      (dubRun "job-42" submittedState [some evDownload40, some evRenderComplete]).pct = 100) := by
  constructor
  · intro jobId st ev hopen hc
    have hstep : dubStep jobId st (some ev) =
        unlockForm { handleProgressEvent jobId st ev with chanOpen := false } := by
      simp [dubStep, hopen, hc]
    rw [hstep]
    refine ⟨?_, ?_, ?_, ?_, rfl⟩
    · show (handleProgressEvent jobId st ev).stages = allDoneStages
      rw [handleProgressEvent_stages]
      simp [relevantB, stageOf, hc]
    · show (handleProgressEvent jobId st ev).pct = 100
      rw [handleProgressEvent_pct]
      simp [pctEffect, hc]
    · show (handleProgressEvent jobId st ev).downloadHref = some ("/api/download/" ++ jobId)
      rw [handleProgressEvent_downloadHref]
      simp [hc]
    · show (handleProgressEvent jobId st ev).resultShown = true
      rw [handleProgressEvent_resultShown]
      simp [hc]
  · constructor <;> decide

/-- C8 witness: the universal part at a concrete complete event. -/
theorem C8_witness :
    (dubStep "job-42" submittedState (some evRenderComplete)).stages = allDoneStages ∧
    (dubStep "job-42" submittedState (some evRenderComplete)).pct = 100 ∧
    (dubStep "job-42" submittedState (some evRenderComplete)).downloadHref =
      some ("/api/download/" ++ "job-42") ∧
    (dubStep "job-42" submittedState (some evRenderComplete)).resultShown = true ∧
    (dubStep "job-42" submittedState (some evRenderComplete)).locked = false :=
  C8_complete_event.1 "job-42" submittedState evRenderComplete rfl rfl

/-- C9: the saved filename is the sanitized video title — every character
of the unsafe set, which contains both `/` and `?`, replaced — followed by
exactly `.mp3` when the media type is `audio` and `.mp4` otherwise, with
the generic name `download` (same extension rule) when no title is
available. -/
theorem C9_save_filename :
    (∀ (vd : VideoData) (mt : String), vd.title ≠ "" →
        saveFileName (some vd) mt =
          sanitizeTitle vd.title ++ (if mt = "audio" then ".mp3" else ".mp4") ∧
        ∀ c ∈ (sanitizeTitle vd.title).data, c ∉ unsafeChars) ∧
    ('/' ∈ unsafeChars ∧ '?' ∈ unsafeChars) ∧
    (∀ mt : String, saveFileName none mt =
        "download" ++ (if mt = "audio" then ".mp3" else ".mp4")) := by
  refine ⟨?_, by decide, fun mt => rfl⟩
  intro vd mt ht
  constructor
  · simp [saveFileName, ht]
  · intro c hc
    simp only [sanitizeTitle, List.mem_map] at hc
    obtain ⟨a, ha, rfl⟩ := hc
    split_ifs with h
    · decide
    · exact h

/-- C9 witness: a title containing `/`, `:` and `?`, saved as audio. -/
theorem C9_witness :
    saveFileName (some { title := "AC/DC: Best?" }) "audio" =
      sanitizeTitle "AC/DC: Best?" ++ (if "audio" = "audio" then ".mp3" else ".mp4") ∧
    ∀ c ∈ (sanitizeTitle "AC/DC: Best?").data, c ∉ unsafeChars :=
  C9_save_filename.1 { title := "AC/DC: Best?" } "audio" (by decide)

/-- C10 (counterexample): the rendered stage state is not a function of
only the most recent recognized-stage event.  The sequences
`[transcribe running, heartbeat complete]` and `[transcribe running]` have
the same last recognized-stage event, yet the first ends with every stage
done (the unrecognized `complete` event triggers `markAllStepsDone`) while
the second ends with `transcribe` merely active. -/
theorem C10_counterexample :
    ([evTranscribeRunning, evHeartbeatComplete].filter recognizedB).getLast? =
      ([evTranscribeRunning].filter recognizedB).getLast? ∧
    (processEvents "job-1" initDubUI [evTranscribeRunning, evHeartbeatComplete]).stages ≠
      (processEvents "job-1" initDubUI [evTranscribeRunning]).stages := by
  decide

/-- C10 (amended): the rendered stage state is a function of only the most
recent event that either carries a recognized StageId or has status
`complete`: two sequences processed from a fresh state whose last such
events are equal render every stage identically. -/
theorem C10_amended (jobId1 jobId2 : String) (evs1 evs2 : List ProgressEvent)
    (h : (evs1.filter relevantB).getLast? = (evs2.filter relevantB).getLast?) :
    (processEvents jobId1 initDubUI evs1).stages =
      (processEvents jobId2 initDubUI evs2).stages := by
  rw [processEvents_stages, processEvents_stages, h]

/-- C10 witness: the amended claim at two concrete sequences with the same
last relevant event. -/
theorem C10_amended_witness :
    (processEvents "j1" initDubUI [evDownload40, evTranslateRunning]).stages =
      (processEvents "j2" initDubUI [evTranslateRunning]).stages :=
  C10_amended "j1" "j2" [evDownload40, evTranslateRunning] [evTranslateRunning] (by decide)

end AutoDub
